import Mathlib

/-
  Verification of the CloudRogue/AI backend orchestration service.

  Shallow embedding of the Python sources under app/: the data model and the
  pure decision logic of each component are translated into executable Lean
  definitions, and the specification claims are settled as theorems about
  those definitions.  Third-party boundaries (json decoding, HTML parsing,
  the HTTP client, pypdf page merging) are passed in as explicit function
  parameters, so theorems quantify over every possible behaviour of those
  boundaries.
-/

/-- JSON values as decoded by Python's json module.  Numbers are modelled as
integers, which suffices for every claim under scrutiny (the claims only
distinguish strings from non-strings). -/
inductive JsonVal where
  | null : JsonVal
  | bool : Bool → JsonVal
  | num : Int → JsonVal
  | str : String → JsonVal
  | arr : List JsonVal → JsonVal
  | obj : List (String × JsonVal) → JsonVal

/-- Python whitespace characters stripped by str.strip() / bytes.lstrip(). -/
def isWsChar (c : Char) : Bool :=
  c = ' ' || c = '\t' || c = '\n' || c = '\r' || c = '\x0b' || c = '\x0c'

/-- Python str.strip(): drop whitespace from both ends. -/
def pyStrip (s : String) : String :=
  String.mk (((s.toList.dropWhile isWsChar).reverse.dropWhile isWsChar).reverse)

/-- Character-list test that l starts with p (kernel-computable). -/
def startsWithList {α : Type} [DecidableEq α] : List α → List α → Bool
  | [], _ => true
  | _ :: _, [] => false
  | a :: as, b :: bs => decide (a = b) && startsWithList as bs

/-- Character-list test that needle occurs contiguously inside hay. -/
def hasSubList {α : Type} [DecidableEq α] (needle : List α) : List α → Bool
  | [] => startsWithList needle []
  | b :: bs => startsWithList needle (b :: bs) || hasSubList needle bs

/-- Python substring containment test, `needle in hay`. -/
def containsSub (hay needle : String) : Bool :=
  hasSubList needle.toList hay.toList

/-- Python str.lower() on ASCII text (the only text the sources lower). -/
def pyLower (s : String) : String :=
  String.mk (s.toList.map Char.toLower)

/-- Python slicing of a string by character count, s[:n]. -/
def strTake (s : String) (n : Nat) : String :=
  String.mk (s.toList.take n)

/-
  ## Onboarding AI Service: output coercion (_coerce_output)

  app/services/openai/onboarding_ai_service.py lines 182-210.  The normalized
  question list (produced by _normalize_questions, which always emits dicts
  carrying the three string keys) is modelled as a list of records.
-/

/-- Normalized onboarding question, one entry of questions_json: the dicts
produced by _normalize_questions always carry exactly these three string
fields. -/
structure QuestionN where
  title : String
  description : String
  question : String
deriving DecidableEq

/-- Answer element of the coerced output: a dict {title, value} where value
is a string or None. -/
structure AnswerOut where
  title : String
  value : Option String
deriving DecidableEq

/-- Value selection for answer index i in _coerce_output: parsed[i]["value"]
when index i exists, parsed[i] is a dict, and the value field is a string;
None in every other case (the v-is-None, v-is-str and else branches of the
source collapse to this). -/
def coerceValueAt (parsed : List JsonVal) (i : Nat) : Option String :=
  match parsed[i]? with
  | some (JsonVal.obj kvs) =>
    match List.lookup "value" kvs with
    | some (JsonVal.str s) => some s
    | _ => none
  | _ => none

/-- Loop body of _coerce_output: `for i, q in enumerate(questions_json)`,
emitting {title: q["title"], value: ...} per index. -/
def coerce_output_aux (parsed : List JsonVal) : Nat → List QuestionN → List AnswerOut
  | _, [] => []
  | i, q :: rest => { title := q.title, value := coerceValueAt parsed i } :: coerce_output_aux parsed (i + 1) rest

/-- OnboardingAiService._coerce_output. -/
def coerce_output (questions_json : List QuestionN) (parsed : List JsonVal) : List AnswerOut :=
  coerce_output_aux parsed 0 questions_json

theorem coerce_output_aux_length (parsed : List JsonVal) (qs : List QuestionN) (i : Nat) :
    (coerce_output_aux parsed i qs).length = qs.length := by
  induction qs generalizing i with
  | nil => rfl
  | cons q rest ih => simp [coerce_output_aux, ih]

theorem coerce_output_aux_get? (parsed : List JsonVal) (qs : List QuestionN) (i j : Nat) :
    (coerce_output_aux parsed i qs)[j]? =
      (qs[j]?).map (fun q => { title := q.title, value := coerceValueAt parsed (i + j) }) := by
  induction qs generalizing i j with
  | nil => simp [coerce_output_aux]
  | cons q rest ih =>
    cases j with
    | zero => simp [coerce_output_aux]
    | succ j =>
      simp only [coerce_output_aux, List.getElem?_cons_succ, ih]
      have h : i + 1 + j = i + (j + 1) := by omega
      rw [h]

theorem coerceValueAt_eq_some_iff (parsed : List JsonVal) (i : Nat) (s : String) :
    coerceValueAt parsed i = some s ↔
      ∃ kvs, parsed[i]? = some (JsonVal.obj kvs) ∧ List.lookup "value" kvs = some (JsonVal.str s) := by
  cases hp : parsed[i]? with
  | none => simp [coerceValueAt, hp]
  | some v =>
    cases v with
    | obj kvs =>
      cases hl : List.lookup "value" kvs with
      | none => simp [coerceValueAt, hp, hl]
      | some w => cases w <;> simp [coerceValueAt, hp, hl]
    | null => simp [coerceValueAt, hp]
    | bool b => simp [coerceValueAt, hp]
    | num n => simp [coerceValueAt, hp]
    | str t => simp [coerceValueAt, hp]
    | arr xs => simp [coerceValueAt, hp]

/-- C1: for every normalized question list and every parsed model array, the
coerced output has exactly one answer per input question in the same order,
each answer's title is copied verbatim from the matching input question, and
an answer's value is present (equal to parsed[i]["value"]) exactly when index
i exists in the parsed array, parsed[i] is a JSON object, and its value field
is a string; in every other case the value is absent. -/
theorem coerce_output_correct (qs : List QuestionN) (parsed : List JsonVal) :
    (coerce_output qs parsed).length = qs.length ∧
    ∀ (i : Nat) (q : QuestionN), qs[i]? = some q →
      ∃ a : AnswerOut, (coerce_output qs parsed)[i]? = some a ∧ a.title = q.title ∧
        ∀ s : String, a.value = some s ↔
          ∃ kvs, parsed[i]? = some (JsonVal.obj kvs) ∧
            List.lookup "value" kvs = some (JsonVal.str s) := by
  constructor
  · exact coerce_output_aux_length parsed qs 0
  · intro i q hq
    refine ⟨{ title := q.title, value := coerceValueAt parsed i }, ?_, rfl, ?_⟩
    · unfold coerce_output
      rw [coerce_output_aux_get? parsed qs 0 i, hq]
      simp
    · intro s
      exact coerceValueAt_eq_some_iff parsed i s

/-- Witness for C1 at a concrete input: two questions, a one-element parsed
array carrying a string value; the first answer exists, keeps the input
title, and carries the parsed value. -/
theorem coerce_output_correct_witness :
    ∃ a : AnswerOut, (coerce_output [⟨"t1", "d1", "q1"⟩, ⟨"t2", "d2", "q2"⟩]
            [JsonVal.obj [("value", JsonVal.str "yes")]])[0]? = some a ∧
      a.title = "t1" ∧
      ∀ s : String, a.value = some s ↔
        ∃ kvs, [JsonVal.obj [("value", JsonVal.str "yes")]][0]? = some (JsonVal.obj kvs) ∧
          List.lookup "value" kvs = some (JsonVal.str s) :=
  (coerce_output_correct [⟨"t1", "d1", "q1"⟩, ⟨"t2", "d2", "q2"⟩]
    [JsonVal.obj [("value", JsonVal.str "yes")]]).2 0 ⟨"t1", "d1", "q1"⟩ rfl

/-
  ## HTTP application: route composition (app/main.py, app/routes/health.py)

  create_app registers the ingest router and the eligibility router under
  the /api path, and nothing else; app/routes/health.py defines the health
  router but mounts it on a separate FastAPI instance constructed at the
  bottom of that module, which no entry point ever serves.  Routes are
  modelled as (method, full path) pairs.
-/

structure Route where
  method : String
  path : String
deriving DecidableEq

/-- Routes declared by app/routes/ingest.py's router. -/
def ingestRouterRoutes : List Route := [⟨"POST", "/ingest"⟩]

/-- Routes declared by app/routes/eligibility.py's router. -/
def eligibilityRouterRoutes : List Route := [⟨"POST", "/eligibility/diagnose"⟩]

/-- Routes declared by app/routes/health.py's router. -/
def healthRouterRoutes : List Route := [⟨"GET", "/health"⟩]

/-- A router mounted under the /api path: include_router(r, prefix="/api"). -/
def underApi (rs : List Route) : List Route :=
  rs.map (fun r => ⟨r.method, "/api" ++ r.path⟩)

/-- Route table of the FastAPI app built by create_app in app/main.py: only
the ingest and eligibility routers are included. -/
def create_app_routes : List Route :=
  underApi ingestRouterRoutes ++ underApi eligibilityRouterRoutes

/-- Route table of the process entry point's served application,
app.main:app = create_app(). -/
def servedAppRoutes : List Route := create_app_routes

/-- Route table of the stray FastAPI instance constructed at the bottom of
app/routes/health.py, which is never served by any entry point. -/
def healthModuleAppRoutes : List Route := underApi healthRouterRoutes

/-- Health route handler: returns HTTP 200 with body {"status": "ok"},
consulting no input. -/
def health_handler : Nat × JsonVal := (200, JsonVal.obj [("status", JsonVal.str "ok")])

/-- C2 (code evaluated at the failing input): the served application built by
create_app has no GET /api/health route at all, so the claimed 200 health
response is unreachable there; the health route only exists on the unserved
FastAPI instance created inside app/routes/health.py, whose handler would
indeed return 200 with {"status": "ok"}. -/
theorem served_app_health_route_missing :
    Route.mk "GET" "/api/health" ∉ servedAppRoutes ∧
    Route.mk "GET" "/api/health" ∈ healthModuleAppRoutes ∧
    health_handler = (200, JsonVal.obj [("status", JsonVal.str "ok")]) := by
  refine ⟨?_, ?_, rfl⟩
  · decide
  · decide

/-
  ## Onboarding AI Service: JSON-array reply parsing (_parse_json_array)

  app/services/openai/onboarding_ai_service.py lines 160-180.  Python's
  json.loads is the stdlib boundary and is passed in as `loads`
  (none = json.JSONDecodeError raised).  Stage 1 decodes the whole stripped
  text inside try/except and falls through both on a decode error and on a
  successful decode of a non-list; stage 2 decodes the substring from the
  first occurrence of the opening square bracket to the last occurrence of
  the closing one, outside any try/except, so a decode error there
  propagates as-is.
-/

/-- Python str.find(c): index of the first occurrence (None models -1). -/
def firstIdxOf (t : String) (c : Char) : Option Nat :=
  t.toList.findIdx? (· = c)

/-- Python str.rfind(c): index of the last occurrence (None models -1). -/
def lastIdxOf (t : String) (c : Char) : Option Nat :=
  (t.toList.reverse.findIdx? (· = c)).map (fun k => t.toList.length - 1 - k)

/-- Python slicing t[l:r] by character index. -/
def strSlice (t : String) (l r : Nat) : String :=
  String.mk ((t.toList.drop l).take (r - l))

/-- Failure modes of _parse_json_array: an uncaught json.JSONDecodeError
escaping stage 2, or the RuntimeError raised at the bottom. -/
inductive ParseArrErr where
  | jsonDecodeError : ParseArrErr
  | runtimeError : String → ParseArrErr
deriving DecidableEq

/-- Stage 2 of _parse_json_array: slice from the first opening bracket to
the last closing bracket (inclusive) and decode; the decode here is not
guarded by try/except. -/
def bracketFallback (loads : String → Option JsonVal) (t : String) : Except ParseArrErr (List JsonVal) :=
  match firstIdxOf t '[', lastIdxOf t ']' with
  | some l, some r =>
    if l < r then
      match loads (strSlice t l (r + 1)) with
      | none => Except.error ParseArrErr.jsonDecodeError
      | some (JsonVal.arr xs) => Except.ok xs
      | some _ => Except.error (ParseArrErr.runtimeError "model output is not a JSON array")
    else Except.error (ParseArrErr.runtimeError "model output is not a JSON array")
  | _, _ => Except.error (ParseArrErr.runtimeError "model output is not a JSON array")

/-- OnboardingAiService._parse_json_array. -/
def parse_json_array (loads : String → Option JsonVal) (text : String) : Except ParseArrErr (List JsonVal) :=
  let t := pyStrip text
  match loads t with
  | some (JsonVal.arr xs) => Except.ok xs
  | _ => bracketFallback loads t

theorem bracketFallback_decode_err (loads : String → Option JsonVal) (t : String) (l r : Nat)
    (h1 : firstIdxOf t '[' = some l) (h2 : lastIdxOf t ']' = some r) (h3 : l < r)
    (h4 : loads (strSlice t l (r + 1)) = none) :
    bracketFallback loads t = Except.error ParseArrErr.jsonDecodeError := by
  simp [bracketFallback, h1, h2, h3, h4]

theorem bracketFallback_ok (loads : String → Option JsonVal) (t : String) (l r : Nat)
    (xs : List JsonVal)
    (h1 : firstIdxOf t '[' = some l) (h2 : lastIdxOf t ']' = some r) (h3 : l < r)
    (h4 : loads (strSlice t l (r + 1)) = some (JsonVal.arr xs)) :
    bracketFallback loads t = Except.ok xs := by
  simp [bracketFallback, h1, h2, h3, h4]

theorem bracketFallback_no_brackets (loads : String → Option JsonVal) (t : String)
    (h : firstIdxOf t '[' = none ∨ lastIdxOf t ']' = none ∨
      ∀ l r, firstIdxOf t '[' = some l → lastIdxOf t ']' = some r → r ≤ l) :
    bracketFallback loads t = Except.error (ParseArrErr.runtimeError "model output is not a JSON array") := by
  unfold bracketFallback
  cases hf : firstIdxOf t '[' with
  | none => rfl
  | some l =>
    cases hl : lastIdxOf t ']' with
    | none => rfl
    | some r =>
      rcases h with h | h | h
      · rw [hf] at h; exact absurd h (by simp)
      · rw [hl] at h; exact absurd h (by simp)
      · have hrl : r ≤ l := h l r hf hl
        simp [Nat.not_lt_of_le hrl]

theorem parse_json_array_eq_fallback (loads : String → Option JsonVal) (text : String)
    (h1 : ∀ xs, loads (pyStrip text) ≠ some (JsonVal.arr xs)) :
    parse_json_array loads text = bracketFallback loads (pyStrip text) := by
  cases hload : loads (pyStrip text) with
  | none => simp [parse_json_array, hload]
  | some v =>
    cases v with
    | arr xs => exact absurd hload (h1 xs)
    | null => simp [parse_json_array, hload]
    | bool b => simp [parse_json_array, hload]
    | num n => simp [parse_json_array, hload]
    | str s => simp [parse_json_array, hload]
    | obj kvs => simp [parse_json_array, hload]

/-- C3 (amended): stage 1 decodes the whole stripped text and succeeds only
on a JSON array; when it fails, and the first opening bracket sits strictly
before the last closing bracket, the bracket substring is decoded — yielding
the array on success but letting the raw JSON decode error propagate on
failure (not the contract-violation message); the contract-violation
message "model output is not a JSON array" is raised exactly when no such
bracket pair exists. -/
theorem parse_json_array_spec (loads : String → Option JsonVal) (text : String) :
    (∀ xs, loads (pyStrip text) = some (JsonVal.arr xs) → parse_json_array loads text = Except.ok xs) ∧
    ((∀ xs, loads (pyStrip text) ≠ some (JsonVal.arr xs)) →
      (∀ l r, firstIdxOf (pyStrip text) '[' = some l → lastIdxOf (pyStrip text) ']' = some r →
        l < r →
        (∀ xs, loads (strSlice (pyStrip text) l (r + 1)) = some (JsonVal.arr xs) →
          parse_json_array loads text = Except.ok xs) ∧
        (loads (strSlice (pyStrip text) l (r + 1)) = none →
          parse_json_array loads text = Except.error ParseArrErr.jsonDecodeError)) ∧
      ((firstIdxOf (pyStrip text) '[' = none ∨ lastIdxOf (pyStrip text) ']' = none ∨
          ∀ l r, firstIdxOf (pyStrip text) '[' = some l → lastIdxOf (pyStrip text) ']' = some r →
            r ≤ l) →
        parse_json_array loads text =
          Except.error (ParseArrErr.runtimeError "model output is not a JSON array"))) := by
  refine ⟨?_, ?_⟩
  · intro xs h
    simp [parse_json_array, h]
  · intro h1
    refine ⟨?_, ?_⟩
    · intro l r hf hl hlt
      refine ⟨?_, ?_⟩
      · intro xs h4
        rw [parse_json_array_eq_fallback loads text h1]
        exact bracketFallback_ok loads (pyStrip text) l r xs hf hl hlt h4
      · intro h4
        rw [parse_json_array_eq_fallback loads text h1]
        exact bracketFallback_decode_err loads (pyStrip text) l r hf hl hlt h4
    · intro h
      rw [parse_json_array_eq_fallback loads text h1]
      exact bracketFallback_no_brackets loads (pyStrip text) h

/-- Witness for C3's amended theorem at a concrete input: a reply with no
bracket pair at all fails with the contract-violation RuntimeError. -/
theorem parse_json_array_spec_witness :
    parse_json_array (fun _ => none) "no json here" =
      Except.error (ParseArrErr.runtimeError "model output is not a JSON array") :=
  ((parse_json_array_spec (fun _ => none) "no json here").2
    (fun _ h => Option.noConfusion h)).2 (Or.inl rfl)

/-- Counterexample to C3 as stated: on the reply "[oops]" neither stage
yields a JSON array (json.loads rejects it both times, modelled by a loads
that always fails), yet the function does not fail with the
upstream-contract-violation message — the stage-2 decode error escapes
uncaught instead. -/
theorem parse_json_array_counterexample :
    parse_json_array (fun _ => none) "[oops]" = Except.error ParseArrErr.jsonDecodeError ∧
    ParseArrErr.jsonDecodeError ≠ ParseArrErr.runtimeError "model output is not a JSON array" := by
  refine ⟨rfl, by decide⟩

/-
  ## Eligibility AI Service: reply validation in diagnose

  app/services/openai/eligibility_ai_service.py lines 62-78: the tail of
  diagnose, from the stripped reply text onward.  json.loads is the
  boundary, passed in as `loads` (the error branch carries the
  JSONDecodeError's message).
-/

/-- Simplified Python repr of a short string as interpolated by f-string
!r: wrapped in single quotes.  Escape sequences are not modelled; every
head string these theorems touch contains no quote, backslash or control
character, where repr is plain quoting. -/
def pyReprHead (s : String) : String := "'" ++ s ++ "'"

/-- Validation body of EligibilityAiService.diagnose applied to the already
stripped reply text t: parse it as JSON, require a JSON object containing
both the supportStatus and the trace keys, and return the parsed object
unchanged. -/
def diagnose_validate_core (loads : String → Except String JsonVal) (t : String) : Except String JsonVal :=
  match loads t with
  | Except.error e =>
      Except.error ("LLM returned non-JSON output: " ++ e ++ ". head=" ++ pyReprHead (strTake t 400))
  | Except.ok (JsonVal.obj kvs) =>
      if (List.lookup "supportStatus" kvs).isNone ∨ (List.lookup "trace" kvs).isNone then
        Except.error "LLM output JSON missing required keys: supportStatus/trace"
      else Except.ok (JsonVal.obj kvs)
  | Except.ok _ => Except.error "LLM output JSON is not an object"

/-- Tail of EligibilityAiService.diagnose from the extracted reply text
onward: text = extract_output_text(resp).strip(), then validation. -/
def diagnose_validate (loads : String → Except String JsonVal) (reply : String) : Except String JsonVal :=
  diagnose_validate_core loads (pyStrip reply)

theorem startsWithList_append {α : Type} [DecidableEq α] (l t : List α) :
    startsWithList l (l ++ t) = true := by
  induction l with
  | nil => rfl
  | cons a as ih => simp [startsWithList, ih]

theorem hasSubList_mid {α : Type} [DecidableEq α] (y x z : List α) :
    hasSubList y (x ++ y ++ z) = true := by
  induction x with
  | nil =>
    cases y with
    | nil =>
      cases z with
      | nil => rfl
      | cons b bs => simp [hasSubList, startsWithList]
    | cons a as =>
      simp [hasSubList, startsWithList, startsWithList_append]
  | cons c cs ih =>
    have ih2 : hasSubList y (cs ++ (y ++ z)) = true := by
      rw [← List.append_assoc]
      exact ih
    simp only [List.cons_append, List.append_assoc]
    simp [hasSubList, ih2]

theorem containsSub_mid (x y z : String) : containsSub (x ++ y ++ z) y = true := by
  unfold containsSub
  have h : (x ++ y ++ z).toList = x.toList ++ y.toList ++ z.toList := by
    simp [String.toList, String.data_append]
  rw [h]
  exact hasSubList_mid y.toList x.toList z.toList

/-- C6 (amended): a reply that fails to parse as JSON is rejected with a
message embedding the first 400 characters of the (stripped) reply text; a
reply parsing to a non-object is rejected with the fixed message "LLM
output JSON is not an object"; an object missing supportStatus or trace is
rejected with the fixed missing-keys message; and an object carrying both
keys is returned unchanged. -/
theorem diagnose_validate_spec (loads : String → Except String JsonVal) (reply : String) :
    (∀ e, loads (pyStrip reply) = Except.error e →
      diagnose_validate loads reply =
        Except.error ("LLM returned non-JSON output: " ++ e ++ ". head=" ++
          pyReprHead (strTake (pyStrip reply) 400)) ∧
      containsSub ("LLM returned non-JSON output: " ++ e ++ ". head=" ++
          pyReprHead (strTake (pyStrip reply) 400)) (strTake (pyStrip reply) 400) = true) ∧
    (∀ v, loads (pyStrip reply) = Except.ok v → (∀ kvs, v ≠ JsonVal.obj kvs) →
      diagnose_validate loads reply = Except.error "LLM output JSON is not an object") ∧
    (∀ kvs, loads (pyStrip reply) = Except.ok (JsonVal.obj kvs) →
      (List.lookup "supportStatus" kvs = none ∨ List.lookup "trace" kvs = none) →
      diagnose_validate loads reply =
        Except.error "LLM output JSON missing required keys: supportStatus/trace") ∧
    (∀ kvs, loads (pyStrip reply) = Except.ok (JsonVal.obj kvs) →
      (List.lookup "supportStatus" kvs).isSome → (List.lookup "trace" kvs).isSome →
      diagnose_validate loads reply = Except.ok (JsonVal.obj kvs)) := by
  refine ⟨?_, ?_, ?_, ?_⟩
  · intro e h
    refine ⟨by unfold diagnose_validate diagnose_validate_core; rw [h], ?_⟩
    have := containsSub_mid ("LLM returned non-JSON output: " ++ e ++ ". head=" ++ "'")
      (strTake (pyStrip reply) 400) "'"
    simpa [pyReprHead, String.append_assoc] using this
  · intro v h hv
    unfold diagnose_validate diagnose_validate_core
    rw [h]
    cases v with
    | obj kvs => exact absurd rfl (hv kvs)
    | null => rfl
    | bool b => rfl
    | num n => rfl
    | str s => rfl
    | arr xs => rfl
  · intro kvs h hmiss
    have hcond : (List.lookup "supportStatus" kvs).isNone ∨ (List.lookup "trace" kvs).isNone := by
      rcases hmiss with h2 | h2
      · exact Or.inl (by rw [h2]; rfl)
      · exact Or.inr (by rw [h2]; rfl)
    unfold diagnose_validate diagnose_validate_core
    rw [h]
    exact if_pos hcond
  · intro kvs h hs ht
    have h1 : ¬ ((List.lookup "supportStatus" kvs).isNone ∨ (List.lookup "trace" kvs).isNone) := by
      rintro (h2 | h2)
      · rw [Option.isNone_iff_eq_none] at h2; rw [h2] at hs; exact absurd hs (by simp)
      · rw [Option.isNone_iff_eq_none] at h2; rw [h2] at ht; exact absurd ht (by simp)
    unfold diagnose_validate diagnose_validate_core
    rw [h]
    exact if_neg h1

/-- Witness for C6's amended theorem at a concrete input: a non-JSON reply
is rejected with the decode-error message embedding the quoted head. -/
theorem diagnose_validate_spec_witness :
    diagnose_validate (fun _ => Except.error "Expecting value") "not json" =
      Except.error ("LLM returned non-JSON output: " ++ "Expecting value" ++ ". head=" ++
        pyReprHead (strTake (pyStrip "not json") 400)) ∧
    containsSub ("LLM returned non-JSON output: " ++ "Expecting value" ++ ". head=" ++
        pyReprHead (strTake (pyStrip "not json") 400)) (strTake (pyStrip "not json") 400) = true :=
  (diagnose_validate_spec (fun _ => Except.error "Expecting value") "not json").1
    "Expecting value" rfl

/-- Python json.loads as it behaves on the literal "[]": a successful decode
to the empty JSON array (used by the C6 counterexample). -/
def loadsEmptyArr : String → Except String JsonVal :=
  fun s => if s = "[]" then Except.ok (JsonVal.arr []) else Except.error "Expecting value"

/-- Counterexample to C6 as stated: a reply of "[]" parses to a non-object,
and the resulting failure message is the fixed string "LLM output JSON is
not an object", which does not include the first 400 characters of the
reply text ("[]"). -/
theorem diagnose_validate_counterexample :
    diagnose_validate loadsEmptyArr "[]" = Except.error "LLM output JSON is not an object" ∧
    containsSub "LLM output JSON is not an object" (strTake (pyStrip "[]") 400) = false := by
  refine ⟨rfl, by decide⟩

/-
  ## Model API Client: reply-text extraction (extract_output_text)

  app/services/openai/openai_client.py lines 172-204.  The nested source
  logic is split into one helper per nesting level.
-/

/-- Inner loop body over a content entry c: collect c["text"] when it is a
non-empty string (`isinstance(t, str) and t`). -/
def chunkOfContent : JsonVal → Option String
  | JsonVal.obj kvs =>
    match List.lookup "text" kvs with
    | some (JsonVal.str t) => if t = "" then none else some t
    | _ => none
  | _ => none

/-- Outer loop body over an output item: dict items contribute the chunks of
their content list; non-dicts and items without a content list contribute
nothing. -/
def chunksOfItem : JsonVal → List String
  | JsonVal.obj kvs =>
    match List.lookup "content" kvs with
    | some (JsonVal.arr cs) => cs.filterMap chunkOfContent
    | _ => []
  | _ => []

/-- Chunks collected from the top-level output list (empty when the output
key is absent or not a list, in which case the source reaches the final
raise just as it does for an empty chunk list). -/
def outputChunks (kvs : List (String × JsonVal)) : List String :=
  match List.lookup "output" kvs with
  | some (JsonVal.arr out) => (out.map chunksOfItem).flatten
  | _ => []

/-- Second extraction path: join the collected chunks with newlines, or
raise "OpenAI response text not found". -/
def outputFallback (kvs : List (String × JsonVal)) : Except String String :=
  if outputChunks kvs = [] then Except.error "OpenAI response text not found"
  else Except.ok (String.intercalate "\n" (outputChunks kvs))

/-- Body of extract_output_text for a dict response: prefer a non-blank
top-level output_text string, otherwise fall back to the output list. -/
def extract_from_obj (kvs : List (String × JsonVal)) : Except String String :=
  match List.lookup "output_text" kvs with
  | some (JsonVal.str ot) => if pyStrip ot ≠ "" then Except.ok ot else outputFallback kvs
  | _ => outputFallback kvs

/-- OpenAIClient.extract_output_text. -/
def extract_output_text : JsonVal → Except String String
  | JsonVal.obj kvs => extract_from_obj kvs
  | _ => Except.error "invalid OpenAI response (not a dict)"

theorem extract_from_obj_fallback (kvs : List (String × JsonVal))
    (hno : ∀ ot, List.lookup "output_text" kvs = some (JsonVal.str ot) → pyStrip ot = "") :
    extract_from_obj kvs = outputFallback kvs := by
  unfold extract_from_obj
  cases hl : List.lookup "output_text" kvs with
  | none => rfl
  | some v =>
    cases v with
    | str ot =>
      have hb := hno ot hl
      simp [hb]
    | null => rfl
    | bool b => rfl
    | num n => rfl
    | arr a => rfl
    | obj o => rfl

/-- C7 (amended): extraction returns a present and non-blank top-level
output_text string verbatim (even when an output list is also present);
otherwise it returns all non-empty string text fields found in the entries
of the output list's content lists, joined with newline separators; and it
fails with "OpenAI response text not found" exactly when neither path
yields any text. -/
theorem extract_output_text_spec (kvs : List (String × JsonVal)) :
    (∀ ot, List.lookup "output_text" kvs = some (JsonVal.str ot) → pyStrip ot ≠ "" →
      extract_output_text (JsonVal.obj kvs) = Except.ok ot) ∧
    ((∀ ot, List.lookup "output_text" kvs = some (JsonVal.str ot) → pyStrip ot = "") →
      (outputChunks kvs ≠ [] →
        extract_output_text (JsonVal.obj kvs) =
          Except.ok (String.intercalate "\n" (outputChunks kvs))) ∧
      (outputChunks kvs = [] →
        extract_output_text (JsonVal.obj kvs) = Except.error "OpenAI response text not found")) := by
  refine ⟨?_, ?_⟩
  · intro ot hl hne
    show extract_from_obj kvs = Except.ok ot
    unfold extract_from_obj
    rw [hl]
    simp [hne]
  · intro hno
    have hfb : extract_output_text (JsonVal.obj kvs) = outputFallback kvs :=
      extract_from_obj_fallback kvs hno
    refine ⟨?_, ?_⟩
    · intro hchunks
      rw [hfb]
      simp [outputFallback, hchunks]
    · intro hchunks
      rw [hfb]
      simp [outputFallback, hchunks]

/-- Witness for C7's amended theorem: a populated top-level output_text is
returned verbatim even though an output list with different text is also
present. -/
theorem extract_output_text_spec_witness :
    extract_output_text (JsonVal.obj
      [("output_text", JsonVal.str "hello"),
       ("output", JsonVal.arr [JsonVal.obj [("content", JsonVal.arr
         [JsonVal.obj [("text", JsonVal.str "different")]])]])]) = Except.ok "hello" :=
  (extract_output_text_spec
      [("output_text", JsonVal.str "hello"),
       ("output", JsonVal.arr [JsonVal.obj [("content", JsonVal.arr
         [JsonVal.obj [("text", JsonVal.str "different")]])]])]).1
    "hello" rfl (by decide)

/-- Content entries of the C7 counterexample response: one empty-string
text field followed by one non-empty text field. -/
def respC7kvs : List (String × JsonVal) :=
  [("output", JsonVal.arr [JsonVal.obj [("content", JsonVal.arr
    [JsonVal.obj [("text", JsonVal.str "")], JsonVal.obj [("text", JsonVal.str "a")]])]])]

/-- Modelled from the spec claim's words: all string text fields found in
the entries of the top-level output list's content lists, with no
non-emptiness requirement.  Used only to compare the claim's description
against the code's behaviour. -/
def claimTextFields (out : List JsonVal) : List String :=
  (out.map (fun item =>
    match item with
    | JsonVal.obj kvs =>
      match List.lookup "content" kvs with
      | some (JsonVal.arr cs) =>
        cs.filterMap (fun c =>
          match c with
          | JsonVal.obj kvs2 =>
            match List.lookup "text" kvs2 with
            | some (JsonVal.str t) => some t
            | _ => none
          | _ => none)
      | _ => []
    | _ => [])).flatten

/-- Counterexample to C7 as stated: with no output_text and content texts
["", "a"], the code returns "a" (it skips empty-string text fields), while
joining all string text fields as the claim describes would give the
newline-led string instead. -/
theorem extract_output_text_counterexample :
    extract_output_text (JsonVal.obj respC7kvs) = Except.ok "a" ∧
    List.lookup "output_text" respC7kvs = none ∧
    String.intercalate "\n" (claimTextFields [JsonVal.obj [("content", JsonVal.arr
      [JsonVal.obj [("text", JsonVal.str "")], JsonVal.obj [("text", JsonVal.str "a")]])]]) = "\na" ∧
    ("a" : String) ≠ "\na" := by
  refine ⟨rfl, rfl, rfl, by decide⟩

/-
  ## Model API Client: PDF upload (upload_pdf)

  app/services/openai/openai_client.py lines 69-93.  The HTTP session is the
  boundary: `net` maps an issued multipart request to its response, and the
  embedding additionally returns the list of requests actually issued, so
  that "no network call happens" is provable.
-/

structure UploadRequest where
  url : String
  filename : String
  fileBytes : List Nat
  fileContentType : String
  purpose : String

structure HttpResponse where
  status : Nat
  body : JsonVal
  bodyText : String

def openaiFilesUrl : String := "https://api.openai.com/v1/files"

/-- Python truthiness of a decoded JSON value (`if not file_id`). -/
def jsonTruthy : JsonVal → Bool
  | JsonVal.null => false
  | JsonVal.bool b => b
  | JsonVal.num n => n != 0
  | JsonVal.str s => s != ""
  | JsonVal.arr xs => !xs.isEmpty
  | JsonVal.obj kvs => !kvs.isEmpty

/-- Python str() of the decoded file id (`return str(file_id)`).  The id is
a string in every conforming response; container renderings are
abbreviated, and no claim depends on them. -/
def pyStr : JsonVal → String
  | JsonVal.str s => s
  | JsonVal.null => "None"
  | JsonVal.bool b => if b then "True" else "False"
  | JsonVal.num n => toString n
  | JsonVal.arr _ => "<list>"
  | JsonVal.obj _ => "<dict>"

/-- OpenAIClient.upload_pdf.  Resp-echoing message suffixes are elided from
the id-missing error; a non-dict response body (on which the source's
j.get would raise AttributeError) is modelled as that distinct error. -/
def upload_pdf (net : UploadRequest → HttpResponse) (pdf_bytes : List Nat)
    (filename : String) : Except String String × List UploadRequest :=
  if pdf_bytes.isEmpty then (Except.error "pdf_bytes is empty", [])
  else
    let req : UploadRequest :=
      { url := openaiFilesUrl, filename := filename, fileBytes := pdf_bytes,
        fileContentType := "application/pdf", purpose := "user_data" }
    let r := net req
    if 400 ≤ r.status then
      (Except.error ("OpenAI Files API error " ++ toString r.status ++ ": " ++ r.bodyText), [req])
    else
      match r.body with
      | JsonVal.obj kvs =>
        match List.lookup "id" kvs with
        | some v =>
          if jsonTruthy v then (Except.ok (pyStr v), [req])
          else (Except.error "OpenAI Files API: file id missing", [req])
        | none => (Except.error "OpenAI Files API: file id missing", [req])
      | _ => (Except.error "AttributeError", [req])

/-- C8: for every network behaviour and declared filename, uploading empty
byte content fails as InvalidInput (the ValueError "pdf_bytes is empty")
and the list of issued HTTP requests is empty — the guard fires before any
network call. -/
theorem upload_pdf_empty_no_network (net : UploadRequest → HttpResponse) (filename : String) :
    upload_pdf net [] filename = (Except.error "pdf_bytes is empty", []) := rfl

/-
  ## Pipeline Runner: SH path (_download_sh_pdf)

  app/services/pipeline_runner.py lines 97-147.  The network download is the
  boundary `dl` (file sequence to downloaded bytes and content type, as
  yielded by iter_download_sh_files) and pypdf merging is the boundary
  `merge`.  The Python dict pdf_map is modelled as an association list with
  newest-first shadowing; the source consumes it only through key lookup,
  containment and emptiness, on which this model agrees with dict-assignment
  semantics.
-/

/-- Intermediate result of SH page scraping. -/
structure ShSeqAndFileSeqs where
  seq : String
  file_seqs : List String

/-- Document metadata produced by the Pipeline Runner. -/
structure DocumentMeta where
  publisher : String
  source_url : String
  filename : String
  content_type : String
deriving DecidableEq

inductive PipelineErr where
  | runtimeError : String → PipelineErr
deriving DecidableEq

/-- Python bytes.lstrip(): drop ASCII whitespace bytes from the left. -/
def bytesLStripWs (b : List Nat) : List Nat :=
  b.dropWhile (fun n => n == 32 || n == 9 || n == 10 || n == 13 || n == 11 || n == 12)

/-- PDF magic marker bytes "%PDF-". -/
def pdfMagic : List Nat := [37, 80, 68, 70, 45]

/-- Downloads yielded by iter_download_sh_files in app/services/sh/
sh_pdf_downloader.py: one record {fileSeq, bytes, contentType} per file
sequence, in order. -/
def iter_download_sh_files (dl : String → List Nat × String) (file_seqs : List String) :
    List (String × List Nat × String) :=
  file_seqs.map (fun fs => (fs, (dl fs).1, (dl fs).2))

/-- Filtering loop of _download_sh_pdf: skip records with an empty fileSeq
or empty bytes, then accept as PDF either by content-type containment of
application/pdf (case-folded) or by the %PDF- magic marker in the first 20
bytes after left-trimming; accepted records are assigned into pdf_map. -/
def processItems (m : List (String × List Nat)) :
    List (String × List Nat × String) → List (String × List Nat)
  | [] => m
  | (fs, b, ct) :: rest =>
    if fs = "" ∨ b = [] then processItems m rest
    else if containsSub (pyLower ct) "application/pdf" = true then processItems ((fs, b) :: m) rest
    else if (bytesLStripWs (b.take 20)).take 5 = pdfMagic then processItems ((fs, b) :: m) rest
    else processItems m rest

/-- Tail of _download_sh_pdf once the ordered PDF list is built: the
unreachable ordering check, then single-PDF pass-through or merge, with the
corresponding filename. -/
def sh_finish (merge : List (List Nat) → List Nat) (url seq : String)
    (ordered : List (List Nat)) : Except PipelineErr (DocumentMeta × List Nat) :=
  if ordered = [] then
    Except.error (PipelineErr.runtimeError "SH: PDF attachments exist but none matched ordering (unexpected)")
  else if 1 < ordered.length then
    Except.ok (⟨"SH", url, "sh_" ++ seq ++ "_merged.pdf", "application/pdf"⟩, merge ordered)
  else
    Except.ok (⟨"SH", url, "sh_" ++ seq ++ ".pdf", "application/pdf"⟩, ordered.headD [])

/-- PipelineRunner._download_sh_pdf from the scraped (seq, file_seqs)
onward: build pdf_map, fail as NotFound when nothing was accepted,
re-order by the scraped file_seqs order, then finish. -/
def download_sh_pdf_core (merge : List (List Nat) → List Nat) (dl : String → List Nat × String)
    (url seq : String) (fl : List String) : Except PipelineErr (DocumentMeta × List Nat) :=
  if processItems [] (iter_download_sh_files dl fl) = [] then
    Except.error (PipelineErr.runtimeError "SH: no PDF attachment found")
  else
    sh_finish merge url seq
      (fl.filterMap (fun fs => List.lookup fs (processItems [] (iter_download_sh_files dl fl))))

/-- PipelineRunner._download_sh_pdf on a scraped ShSeqAndFileSeqs record. -/
def download_sh_pdf (merge : List (List Nat) → List Nat) (dl : String → List Nat × String)
    (url : String) (parsed : ShSeqAndFileSeqs) : Except PipelineErr (DocumentMeta × List Nat) :=
  download_sh_pdf_core merge dl url parsed.seq parsed.file_seqs

/-- Acceptance of a file sequence by _download_sh_pdf's filtering loop,
as a predicate of the (deterministic) download behaviour. -/
def shAccepts (dl : String → List Nat × String) (fs : String) : Bool :=
  fs != "" && !(dl fs).1.isEmpty &&
    (containsSub (pyLower (dl fs).2) "application/pdf" ||
      (bytesLStripWs ((dl fs).1.take 20)).take 5 == pdfMagic)

theorem shAccepts_iff (dl : String → List Nat × String) (fs : String) :
    shAccepts dl fs = true ↔
      fs ≠ "" ∧ (dl fs).1 ≠ [] ∧
        (containsSub (pyLower (dl fs).2) "application/pdf" = true ∨
          (bytesLStripWs ((dl fs).1.take 20)).take 5 = pdfMagic) := by
  unfold shAccepts
  simp [Bool.and_eq_true, Bool.or_eq_true, List.isEmpty_iff, and_assoc]

theorem iter_download_cons (dl : String → List Nat × String) (fs : String) (fl : List String) :
    iter_download_sh_files dl (fs :: fl) =
      (fs, (dl fs).1, (dl fs).2) :: iter_download_sh_files dl fl := rfl

theorem processItems_lookup (dl : String → List Nat × String) (fl : List String)
    (m : List (String × List Nat)) (k : String) :
    List.lookup k (processItems m (iter_download_sh_files dl fl)) =
      if k ∈ fl ∧ shAccepts dl k = true then some (dl k).1 else List.lookup k m := by
  induction fl generalizing m with
  | nil => simp [iter_download_sh_files, processItems]
  | cons fs fl ih =>
    rw [iter_download_cons]
    simp only [processItems]
    by_cases hguard : fs = "" ∨ (dl fs).1 = []
    · rw [if_pos hguard, ih]
      have haccfs : shAccepts dl fs = false := by
        rcases hguard with h | h
        · unfold shAccepts; simp [h]
        · unfold shAccepts; simp [h]
      by_cases hk : k = fs
      · subst hk
        simp [haccfs]
      · simp [List.mem_cons, hk]
    · rw [if_neg hguard]
      push_neg at hguard
      by_cases hct : containsSub (pyLower (dl fs).2) "application/pdf" = true
      · rw [if_pos hct, ih]
        have haccfs : shAccepts dl fs = true :=
          (shAccepts_iff dl fs).2 ⟨hguard.1, hguard.2, Or.inl hct⟩
        by_cases hk : k = fs
        · subst hk
          simp [haccfs, List.lookup]
        · have hbk : (k == fs) = false := by simp [hk]
          simp [List.mem_cons, hk, List.lookup, hbk]
      · rw [if_neg hct]
        by_cases hmg : (bytesLStripWs ((dl fs).1.take 20)).take 5 = pdfMagic
        · rw [if_pos hmg, ih]
          have haccfs : shAccepts dl fs = true :=
            (shAccepts_iff dl fs).2 ⟨hguard.1, hguard.2, Or.inr hmg⟩
          by_cases hk : k = fs
          · subst hk
            simp [haccfs, List.lookup]
          · have hbk : (k == fs) = false := by simp [hk]
            simp [List.mem_cons, hk, List.lookup, hbk]
        · rw [if_neg hmg, ih]
          have haccfs : shAccepts dl fs = false := by
            rw [← Bool.not_eq_true]
            rw [shAccepts_iff]
            push_neg
            intro _ _
            exact ⟨hct, hmg⟩
          by_cases hk : k = fs
          · subst hk
            simp [haccfs]
          · simp [List.mem_cons, hk]

theorem processItems_all_reject (dl : String → List Nat × String) (fl : List String)
    (m : List (String × List Nat)) (h : ∀ fs ∈ fl, shAccepts dl fs = false) :
    processItems m (iter_download_sh_files dl fl) = m := by
  induction fl generalizing m with
  | nil => simp [iter_download_sh_files, processItems]
  | cons fs fl ih =>
    have hrest : ∀ x ∈ fl, shAccepts dl x = false :=
      fun x hx => h x (List.mem_cons_of_mem fs hx)
    have hfs : shAccepts dl fs = false := h fs (List.mem_cons_self fs fl)
    rw [iter_download_cons]
    simp only [processItems]
    by_cases hguard : fs = "" ∨ (dl fs).1 = []
    · rw [if_pos hguard]
      exact ih m hrest
    · rw [if_neg hguard]
      push_neg at hguard
      have hcases : ¬ (containsSub (pyLower (dl fs).2) "application/pdf" = true ∨
          (bytesLStripWs ((dl fs).1.take 20)).take 5 = pdfMagic) := by
        intro hor
        have : shAccepts dl fs = true := (shAccepts_iff dl fs).2 ⟨hguard.1, hguard.2, hor⟩
        rw [this] at hfs
        exact Bool.noConfusion hfs
      push_neg at hcases
      rw [if_neg hcases.1, if_neg hcases.2]
      exact ih m hrest

theorem filterMap_if_eq_map_filter {α β : Type} (p : α → Bool) (h : α → β) (l : List α) :
    l.filterMap (fun x => if p x = true then some (h x) else none) = (l.filter p).map h := by
  induction l with
  | nil => rfl
  | cons a l ih => by_cases hp : p a = true <;> simp [hp, ih]

theorem sh_ordered_eq (dl : String → List Nat × String) (fl : List String) :
    fl.filterMap (fun fs => List.lookup fs (processItems [] (iter_download_sh_files dl fl))) =
      (fl.filter (fun fs => shAccepts dl fs)).map (fun fs => (dl fs).1) := by
  rw [← filterMap_if_eq_map_filter (fun fs => shAccepts dl fs) (fun fs => (dl fs).1) fl]
  apply List.filterMap_congr
  intro fs hfs
  rw [processItems_lookup]
  by_cases hacc : shAccepts dl fs = true
  · rw [if_pos ⟨hfs, hacc⟩, if_pos hacc]
  · rw [if_neg (fun hc => hacc hc.2), if_neg hacc]
    rfl

theorem filterMap_lookup_nil (fl : List String) :
    fl.filterMap (fun fs => List.lookup fs ([] : List (String × List Nat))) = [] := by
  induction fl with
  | nil => rfl
  | cons a l ih => simp [List.lookup, ih]

/-- C4 (amended): a downloaded file is accepted as a PDF iff its
file-sequence id and its bytes are non-empty and either its content-type
contains application/pdf or its first 20 bytes left-trimmed start with
%PDF-; the accepted PDF bytes are arranged in the original file_seqs
scrape order (one entry per occurrence, dropping ids with no accepted
PDF); the SH path fails as NotFound when no file is accepted; a single
ordered PDF is used as-is; and more than one ordered PDF is merged in that
order. -/
theorem download_sh_pdf_spec (merge : List (List Nat) → List Nat)
    (dl : String → List Nat × String) (url seq : String) (fl : List String) :
    (∀ fs, shAccepts dl fs = true ↔
      fs ≠ "" ∧ (dl fs).1 ≠ [] ∧
        (containsSub (pyLower (dl fs).2) "application/pdf" = true ∨
          (bytesLStripWs ((dl fs).1.take 20)).take 5 = pdfMagic)) ∧
    (fl.filter (fun fs => shAccepts dl fs) = [] →
      download_sh_pdf merge dl url ⟨seq, fl⟩ =
        Except.error (PipelineErr.runtimeError "SH: no PDF attachment found")) ∧
    (∀ b, (fl.filter (fun fs => shAccepts dl fs)).map (fun fs => (dl fs).1) = [b] →
      download_sh_pdf merge dl url ⟨seq, fl⟩ =
        Except.ok (⟨"SH", url, "sh_" ++ seq ++ ".pdf", "application/pdf"⟩, b)) ∧
    (1 < ((fl.filter (fun fs => shAccepts dl fs)).map (fun fs => (dl fs).1)).length →
      download_sh_pdf merge dl url ⟨seq, fl⟩ =
        Except.ok (⟨"SH", url, "sh_" ++ seq ++ "_merged.pdf", "application/pdf"⟩,
          merge ((fl.filter (fun fs => shAccepts dl fs)).map (fun fs => (dl fs).1)))) := by
  refine ⟨shAccepts_iff dl, ?_, ?_, ?_⟩
  · intro hnone
    have hall : ∀ fs ∈ fl, shAccepts dl fs = false := by
      intro fs hfs
      cases hsa : shAccepts dl fs with
      | false => rfl
      | true =>
        have hmem : fs ∈ fl.filter (fun fs => shAccepts dl fs) := List.mem_filter.2 ⟨hfs, hsa⟩
        rw [hnone] at hmem
        exact absurd hmem (List.not_mem_nil fs)
    have hmap : processItems [] (iter_download_sh_files dl fl) = [] :=
      processItems_all_reject dl fl [] hall
    show download_sh_pdf_core merge dl url seq fl =
      Except.error (PipelineErr.runtimeError "SH: no PDF attachment found")
    unfold download_sh_pdf_core
    rw [if_pos hmap]
  · intro b hone
    have hord := sh_ordered_eq dl fl
    rw [hone] at hord
    have hmapne : processItems [] (iter_download_sh_files dl fl) ≠ [] := by
      intro h0
      rw [h0, filterMap_lookup_nil] at hord
      exact List.noConfusion hord
    show download_sh_pdf_core merge dl url seq fl =
      Except.ok (⟨"SH", url, "sh_" ++ seq ++ ".pdf", "application/pdf"⟩, b)
    unfold download_sh_pdf_core
    rw [if_neg hmapne, hord]
    unfold sh_finish
    rw [if_neg (by simp : ¬ ([b] : List (List Nat)) = [])]
    rw [if_neg (by simp : ¬ 1 < ([b] : List (List Nat)).length)]
    rfl
  · intro hlen
    have hord := sh_ordered_eq dl fl
    have hne : (fl.filter (fun fs => shAccepts dl fs)).map (fun fs => (dl fs).1) ≠ [] := by
      intro h0
      rw [h0] at hlen
      exact absurd hlen (by simp)
    have hmapne : processItems [] (iter_download_sh_files dl fl) ≠ [] := by
      intro h0
      rw [h0, filterMap_lookup_nil] at hord
      exact hne hord.symm
    show download_sh_pdf_core merge dl url seq fl =
      Except.ok (⟨"SH", url, "sh_" ++ seq ++ "_merged.pdf", "application/pdf"⟩,
        merge ((fl.filter (fun fs => shAccepts dl fs)).map (fun fs => (dl fs).1)))
    unfold download_sh_pdf_core
    rw [if_neg hmapne, hord]
    unfold sh_finish
    rw [if_neg hne, if_pos hlen]

/-- Concrete download behaviour for the C4 witness: of the scraped sequence
ids 3, 1, 2 only 1 (via the magic marker) and 2 (via content type) are
PDFs. -/
def dlW : String → List Nat × String :=
  fun fs =>
    if fs = "1" then ([37, 80, 68, 70, 45, 49], "application/octet-stream")
    else if fs = "2" then ([50], "application/pdf")
    else ([60, 104, 116, 109, 108, 62], "text/html")

/-- Witness for C4's amended theorem: scraped order 3, 1, 2 with PDFs at 1
and 2 yields the merge of their bytes in scrape order under the merged
filename. -/
theorem download_sh_pdf_spec_witness :
    download_sh_pdf (fun ls => ls.flatten) dlW "http://x" ⟨"9", ["3", "1", "2"]⟩ =
      Except.ok (⟨"SH", "http://x", "sh_9_merged.pdf", "application/pdf"⟩,
        (fun ls => ls.flatten)
          (((["3", "1", "2"].filter (fun fs => shAccepts dlW fs)).map (fun fs => (dlW fs).1)))) :=
  (download_sh_pdf_spec (fun ls => ls.flatten) dlW "http://x" "9" ["3", "1", "2"]).2.2.2
    (by decide)

/-- Counterexample to C4 as stated: the downloaded file for sequence 1 has
a content-type containing application/pdf — so the claim's acceptance test
accepts it — but its bytes are empty; the code skips it and fails as
NotFound instead of treating it as the single accepted PDF. -/
theorem download_sh_pdf_counterexample :
    containsSub (pyLower "application/pdf") "application/pdf" = true ∧
    download_sh_pdf (fun ls => ls.flatten) (fun _ => ([], "application/pdf")) "u" ⟨"7", ["1"]⟩ =
      Except.error (PipelineErr.runtimeError "SH: no PDF attachment found") := by
  refine ⟨by decide, rfl⟩

/-
  ## LH Document Locator: attachment-id extraction (extract_single_pdf_file_id)

  app/services/lh/lh_pdf_parser.py lines 13-49.  BeautifulSoup CSS selection
  is the boundary: the embedding starts from the selected div.bbsV_atchmnfl
  container, modelled as an optional list of its href-bearing anchors (none
  when the container is absent).  The regex
  fileDownLoad\(\s*(['"])(\d+)\1\s*\) with IGNORECASE is embedded as a
  character-level scanner; digits are ASCII, as in every LH file id.
-/

/-- An anchor inside the attachment container: its href attribute and its
get_text(strip=True) text. -/
structure Anchor where
  href : String
  text : String

/-- Python str.endswith(suffix). -/
def pyEndsWith (s suf : String) : Bool :=
  startsWithList suf.toList.reverse s.toList.reverse

/-- Case-insensitive literal matching for the regex's fileDownLoad( part:
returns the rest of the input after the literal. -/
def matchLitCI : List Char → List Char → Option (List Char)
  | [], rest => some rest
  | _ :: _, [] => none
  | p :: ps, c :: cs => if p.toLower = c.toLower then matchLitCI ps cs else none

/-- Attempt to match fileDownLoad\(\s*(['"])(\d+)\1\s*\) at the start of
cs, returning the digit group.  \d+ is deterministic here since no digit
can satisfy the following back-referenced quote. -/
def matchFDLAt (cs : List Char) : Option String :=
  match matchLitCI "fileDownLoad(".toList cs with
  | none => none
  | some r1 =>
    match r1.dropWhile isWsChar with
    | [] => none
    | q :: r2 =>
      if q = '\'' ∨ q = '"' then
        match r2.takeWhile Char.isDigit, r2.dropWhile Char.isDigit with
        | [], _ => none
        | ds, r3 =>
          match r3 with
          | [] => none
          | q2 :: r4 =>
            if q2 = q then
              match r4.dropWhile isWsChar with
              | ')' :: _ => some (String.mk ds)
              | _ => none
            else none
      else none

/-- Leftmost regex search (re.search): try a match at every position. -/
def searchFDL : List Char → Option String
  | [] => none
  | c :: cs =>
    match matchFDLAt (c :: cs) with
    | some d => some d
    | none => searchFDL cs

/-- Per-anchor filter of the source loop: href must contain the literal
fileDownLoad (case-sensitively, as in the source's pre-check), the trimmed
lowered anchor text must end in .pdf, and the regex must yield an id. -/
def anchorPdfId (a : Anchor) : Option String :=
  if containsSub a.href "fileDownLoad" = false then none
  else if pyEndsWith (pyLower (pyStrip a.text)) ".pdf" = false then none
  else searchFDL a.href.toList

inductive LhErr where
  | valueError : String → LhErr
deriving DecidableEq

/-- The source's for-loop over anchors with its running found id:
a second distinct id raises the ambiguity ValueError. -/
def lhFindLoop (found : Option String) : List Anchor → Except LhErr (Option String)
  | [] => Except.ok found
  | a :: rest =>
    match anchorPdfId a with
    | none => lhFindLoop found rest
    | some fid =>
      match found with
      | some f =>
        if f ≠ fid then
          Except.error (LhErr.valueError ("multiple pdf attachments found: " ++ f ++ ", " ++ fid))
        else lhFindLoop (some fid) rest
      | none => lhFindLoop (some fid) rest

/-- extract_single_pdf_file_id, from the selected container onward. -/
def extract_single_pdf_file_id (container : Option (List Anchor)) : Except LhErr String :=
  match container with
  | none => Except.error (LhErr.valueError "attachment container not found: div.bbsV_atchmnfl")
  | some anchors =>
    match lhFindLoop none anchors with
    | Except.error e => Except.error e
    | Except.ok none => Except.error (LhErr.valueError "pdf attachment not found")
    | Except.ok (some fid) => Except.ok fid

theorem lhFindLoop_all_eq (anchors : List Anchor) (fid : String)
    (h : ∀ x ∈ anchors.filterMap anchorPdfId, x = fid) :
    lhFindLoop (some fid) anchors = Except.ok (some fid) := by
  induction anchors with
  | nil => rfl
  | cons a rest ih =>
    cases ha : anchorPdfId a with
    | none =>
      have h2 : ∀ x ∈ rest.filterMap anchorPdfId, x = fid := by
        intro x hx
        exact h x (by simp only [List.filterMap_cons, ha]; exact hx)
      simp [lhFindLoop, ha, ih h2]
    | some g =>
      have hg : g = fid := h g (by simp [List.filterMap_cons, ha])
      subst hg
      have h2 : ∀ x ∈ rest.filterMap anchorPdfId, x = g := by
        intro x hx
        exact h x (by simp only [List.filterMap_cons, ha]; exact List.mem_cons_of_mem g hx)
      simp [lhFindLoop, ha, ih h2]

theorem lhFindLoop_none_all_eq (anchors : List Anchor) (fid : String)
    (hmem : fid ∈ anchors.filterMap anchorPdfId)
    (hall : ∀ x ∈ anchors.filterMap anchorPdfId, x = fid) :
    lhFindLoop none anchors = Except.ok (some fid) := by
  induction anchors with
  | nil => exact absurd hmem (by simp)
  | cons a rest ih =>
    cases ha : anchorPdfId a with
    | none =>
      rw [List.filterMap_cons, ha] at hmem hall
      simp only [lhFindLoop, ha]
      exact ih hmem hall
    | some g =>
      rw [List.filterMap_cons, ha] at hmem hall
      have hg : g = fid := hall g (List.mem_cons_self g _)
      subst hg
      have h2 : ∀ x ∈ rest.filterMap anchorPdfId, x = g :=
        fun x hx => hall x (List.mem_cons_of_mem g hx)
      simp only [lhFindLoop, ha]
      exact lhFindLoop_all_eq rest g h2

theorem lhFindLoop_found_ne (anchors : List Anchor) (f : String)
    (h : ∃ x ∈ anchors.filterMap anchorPdfId, x ≠ f) :
    ∃ y, y ∈ anchors.filterMap anchorPdfId ∧ y ≠ f ∧
      lhFindLoop (some f) anchors =
        Except.error (LhErr.valueError ("multiple pdf attachments found: " ++ f ++ ", " ++ y)) := by
  induction anchors with
  | nil => simp at h
  | cons a rest ih =>
    cases ha : anchorPdfId a with
    | none =>
      rw [List.filterMap_cons, ha] at h
      obtain ⟨y, hy, hyne, heq⟩ := ih h
      refine ⟨y, ?_, hyne, ?_⟩
      · rw [List.filterMap_cons, ha]
        exact hy
      · simp only [lhFindLoop, ha]
        exact heq
    | some g =>
      by_cases hgf : g = f
      · subst hgf
        rw [List.filterMap_cons, ha] at h
        have h2 : ∃ x ∈ rest.filterMap anchorPdfId, x ≠ g := by
          obtain ⟨x, hx, hxne⟩ := h
          rcases List.mem_cons.1 hx with hx1 | hx2
          · exact absurd hx1 hxne
          · exact ⟨x, hx2, hxne⟩
        obtain ⟨y, hy, hyne, heq⟩ := ih h2
        refine ⟨y, ?_, hyne, ?_⟩
        · rw [List.filterMap_cons, ha]
          exact List.mem_cons_of_mem g hy
        · simp only [lhFindLoop, ha]
          rw [if_neg (by simp : ¬ (g ≠ g))]
          exact heq
      · have hfg : f ≠ g := fun hh => hgf hh.symm
        refine ⟨g, ?_, hgf, ?_⟩
        · rw [List.filterMap_cons, ha]
          exact List.mem_cons_self g _
        · simp [lhFindLoop, ha, hfg]

theorem lhFindLoop_start_distinct (anchors : List Anchor)
    (h : ∃ x ∈ anchors.filterMap anchorPdfId, ∃ y ∈ anchors.filterMap anchorPdfId, x ≠ y) :
    ∃ f y, f ∈ anchors.filterMap anchorPdfId ∧ y ∈ anchors.filterMap anchorPdfId ∧ f ≠ y ∧
      lhFindLoop none anchors =
        Except.error (LhErr.valueError ("multiple pdf attachments found: " ++ f ++ ", " ++ y)) := by
  induction anchors with
  | nil => simp at h
  | cons a rest ih =>
    cases ha : anchorPdfId a with
    | none =>
      rw [List.filterMap_cons, ha] at h
      obtain ⟨f, y, hf, hy, hne, heq⟩ := ih h
      refine ⟨f, y, ?_, ?_, hne, ?_⟩
      · rw [List.filterMap_cons, ha]; exact hf
      · rw [List.filterMap_cons, ha]; exact hy
      · simp only [lhFindLoop, ha]; exact heq
    | some g =>
      rw [List.filterMap_cons, ha] at h
      have h2 : ∃ x ∈ rest.filterMap anchorPdfId, x ≠ g := by
        obtain ⟨x, hx, y, hy, hne⟩ := h
        rcases List.mem_cons.1 hx with hx1 | hx2
        · subst hx1
          rcases List.mem_cons.1 hy with hy1 | hy2
          · exact absurd hy1.symm hne
          · exact ⟨y, hy2, fun hh => hne hh.symm⟩
        · rcases List.mem_cons.1 hy with hy1 | hy2
          · subst hy1
            exact ⟨x, hx2, hne⟩
          · by_cases hxg : x = g
            · exact ⟨y, hy2, fun hh => hne (hxg.trans hh.symm)⟩
            · exact ⟨x, hx2, hxg⟩
      obtain ⟨y, hy, hyne, heq⟩ := lhFindLoop_found_ne rest g h2
      refine ⟨g, y, ?_, ?_, fun hh => hyne hh.symm, ?_⟩
      · rw [List.filterMap_cons, ha]; exact List.mem_cons_self g _
      · rw [List.filterMap_cons, ha]; exact List.mem_cons_of_mem g hy
      · simp only [lhFindLoop, ha]; exact heq

/-- C5: LH attachment-id extraction fails as NotFound when the container is
absent; fails as NotFound when no anchor passes the three-part filter
(fileDownLoad in href, trimmed text ending in .pdf case-insensitively, a
parsable numeric id); returns the single id when all matching anchors
resolve to the same id (repetitions are not an error); and fails as the
ambiguity ValueError whose message starts with "multiple pdf attachments
found" when two or more distinct ids occur among matching anchors. -/
theorem extract_single_pdf_file_id_spec (container : Option (List Anchor)) :
    (container = none →
      extract_single_pdf_file_id container =
        Except.error (LhErr.valueError "attachment container not found: div.bbsV_atchmnfl")) ∧
    ∀ anchors, container = some anchors →
      (anchors.filterMap anchorPdfId = [] →
        extract_single_pdf_file_id container =
          Except.error (LhErr.valueError "pdf attachment not found")) ∧
      (∀ fid, fid ∈ anchors.filterMap anchorPdfId →
        (∀ x ∈ anchors.filterMap anchorPdfId, x = fid) →
        extract_single_pdf_file_id container = Except.ok fid) ∧
      ((∃ x ∈ anchors.filterMap anchorPdfId, ∃ y ∈ anchors.filterMap anchorPdfId, x ≠ y) →
        ∃ f y, f ∈ anchors.filterMap anchorPdfId ∧ y ∈ anchors.filterMap anchorPdfId ∧ f ≠ y ∧
          extract_single_pdf_file_id container =
            Except.error (LhErr.valueError ("multiple pdf attachments found: " ++ f ++ ", " ++ y))) := by
  refine ⟨?_, ?_⟩
  · intro hc
    subst hc
    rfl
  · intro anchors hc
    subst hc
    refine ⟨?_, ?_, ?_⟩
    · intro hids
      have hloop : lhFindLoop none anchors = Except.ok none := by
        induction anchors with
        | nil => rfl
        | cons a rest ih =>
          cases ha : anchorPdfId a with
          | none =>
            rw [List.filterMap_cons, ha] at hids
            simp only [lhFindLoop, ha]
            exact ih hids
          | some g =>
            rw [List.filterMap_cons, ha] at hids
            exact List.noConfusion hids
      simp [extract_single_pdf_file_id, hloop]
    · intro fid hmem hall
      have hloop := lhFindLoop_none_all_eq anchors fid hmem hall
      simp [extract_single_pdf_file_id, hloop]
    · intro h
      obtain ⟨f, y, hf, hy, hne, heq⟩ := lhFindLoop_start_distinct anchors h
      refine ⟨f, y, hf, hy, hne, ?_⟩
      simp [extract_single_pdf_file_id, heq]

/-- Witness for C5 at the spec's sample input: a container with a non-PDF
anchor and one PDF anchor whose href carries fileDownLoad with id 64767994
extracts that id. -/
theorem extract_single_pdf_file_id_spec_witness :
    extract_single_pdf_file_id
      (some [⟨"javascript:fileDownLoad(\"64851760\");", "xxx.hwp"⟩,
             ⟨"javascript:fileDownLoad(\"64767994\");", "any name.pdf"⟩]) =
      Except.ok "64767994" :=
  ((extract_single_pdf_file_id_spec
      (some [⟨"javascript:fileDownLoad(\"64851760\");", "xxx.hwp"⟩,
             ⟨"javascript:fileDownLoad(\"64767994\");", "any name.pdf"⟩])).2
    _ rfl).2.1 "64767994" (by decide) (by decide)

/-
  ## Eligibility route: module-level service construction

  app/routes/eligibility.py line 48 runs _service = EligibilityAiService()
  when the module is imported, and app/main.py imports the route modules at
  process start, before any request is served.  EligibilityAiService's
  constructor builds an OpenAIClient, which reads OPENAI_API_KEY and
  OPENAI_MODEL from the environment and raises when either is missing or
  empty.  The process environment is the boundary `env`.
-/

/-- Python truthiness of os.getenv's result (`if not api_key`). -/
def pyTruthyStrOpt : Option String → Bool
  | none => false
  | some s => s != ""

structure OpenAIConfigL where
  api_key : String
  model : String
deriving DecidableEq

/-- OpenAIClient.__init__ with cfg=None: read and validate the two
environment variables. -/
def openai_client_init (env : String → Option String) : Except String OpenAIConfigL :=
  if pyTruthyStrOpt (env "OPENAI_API_KEY") = false then
    Except.error "OPENAI_API_KEY is required"
  else if pyTruthyStrOpt (env "OPENAI_MODEL") = false then
    Except.error "OPENAI_MODEL is required"
  else
    Except.ok ⟨(env "OPENAI_API_KEY").getD "", (env "OPENAI_MODEL").getD ""⟩

/-- Fallback prompt path resolved relative to the service module's own
location by _resolve_prompt_path. -/
def defaultEligPromptPath : String := "app/prompts/eligibility.txt"

/-- EligibilityAiService._resolve_prompt_path. -/
def eligibility_prompt_path (env : String → Option String) : String :=
  match env "PROMPTS_DIR" with
  | some d => if d ≠ "" then d ++ "/eligibility.txt" else defaultEligPromptPath
  | none => defaultEligPromptPath

structure EligibilityServiceL where
  cfg : OpenAIConfigL
  prompt_path : String
deriving DecidableEq

/-- EligibilityAiService.__init__: construct the client, resolve the
prompt path. -/
def eligibility_service_init (env : String → Option String) : Except String EligibilityServiceL :=
  match openai_client_init env with
  | Except.error e => Except.error e
  | Except.ok cfg => Except.ok ⟨cfg, eligibility_prompt_path env⟩

/-- Module-level statement _service = EligibilityAiService(), executed once
when app/routes/eligibility.py is imported. -/
def eligibility_module_init (env : String → Option String) : Except String EligibilityServiceL :=
  eligibility_service_init env

structure AppState where
  eligibilityService : EligibilityServiceL
deriving DecidableEq

/-- Process start of app/main.py: importing the route modules executes the
eligibility module's top-level service construction; an exception there
aborts the import, so the application never starts. -/
def app_startup (env : String → Option String) : Except String AppState :=
  match eligibility_module_init env with
  | Except.error e => Except.error e
  | Except.ok s => Except.ok ⟨s⟩

/-- Service consulted by the diagnose handler for a request: always the
module-level _service, with no per-request construction or environment
read. -/
def diagnose_handler_service (st : AppState) (_req : JsonVal) : EligibilityServiceL :=
  st.eligibilityService

/-- C9: when OPENAI_API_KEY or OPENAI_MODEL is missing or empty, startup
itself fails with the corresponding configuration error and no application
state exists for any request to reach (so no per-request HTTP 500 can
arise on the eligibility route); when startup succeeds, every request's
diagnose handler consults the single service instance constructed once
at module-import time. -/
theorem eligibility_single_instance_fail_fast (env : String → Option String) :
    ((pyTruthyStrOpt (env "OPENAI_API_KEY") = false ∨
      pyTruthyStrOpt (env "OPENAI_MODEL") = false) →
      (app_startup env = Except.error "OPENAI_API_KEY is required" ∨
       app_startup env = Except.error "OPENAI_MODEL is required") ∧
      ∀ st : AppState, app_startup env ≠ Except.ok st) ∧
    (∀ st : AppState, app_startup env = Except.ok st →
      eligibility_service_init env = Except.ok st.eligibilityService ∧
      ∀ r1 r2 : JsonVal, diagnose_handler_service st r1 = diagnose_handler_service st r2) := by
  constructor
  · intro h
    have herr : app_startup env = Except.error "OPENAI_API_KEY is required" ∨
        app_startup env = Except.error "OPENAI_MODEL is required" := by
      cases hk : pyTruthyStrOpt (env "OPENAI_API_KEY") with
      | false =>
        left
        simp [app_startup, eligibility_module_init, eligibility_service_init,
          openai_client_init, hk]
      | true =>
        cases hm : pyTruthyStrOpt (env "OPENAI_MODEL") with
        | false =>
          right
          simp [app_startup, eligibility_module_init, eligibility_service_init,
            openai_client_init, hk, hm]
        | true =>
          rcases h with h | h
          · rw [hk] at h; exact absurd h (by simp)
          · rw [hm] at h; exact absurd h (by simp)
    refine ⟨herr, ?_⟩
    intro st hok
    rcases herr with h2 | h2 <;> rw [h2] at hok <;> exact Except.noConfusion hok
  · intro st hok
    refine ⟨?_, fun r1 r2 => rfl⟩
    unfold app_startup eligibility_module_init at hok
    cases hsi : eligibility_service_init env with
    | error e => rw [hsi] at hok; exact Except.noConfusion hok
    | ok s =>
      rw [hsi] at hok
      have h2 : Except.ok (⟨s⟩ : AppState) = Except.ok st := hok
      have h3 : (⟨s⟩ : AppState) = st := by injection h2
      rw [← h3]

/-- Environment for the C9 witness: OPENAI_MODEL set, OPENAI_API_KEY
absent. -/
def envNoKey : String → Option String :=
  fun k => if k = "OPENAI_MODEL" then some "model-name" else none

/-- Witness for C9: with the API key absent, startup fails with a
configuration error and no application state exists. -/
theorem eligibility_single_instance_fail_fast_witness :
    (app_startup envNoKey = Except.error "OPENAI_API_KEY is required" ∨
     app_startup envNoKey = Except.error "OPENAI_MODEL is required") ∧
    ∀ st : AppState, app_startup envNoKey ≠ Except.ok st :=
  (eligibility_single_instance_fail_fast envNoKey).1 (Or.inl rfl)

/-
  ## Ingest route

  app/routes/ingest.py lines 79-175.  The JSON variant arrives as the
  schema-validated fields of IngestJsonRequest (pydantic: link is any
  string, publisher must be the literal LH or SH, questions a list of
  validated items); the form variant as optional raw fields, with
  QUESTIONS_JSON decoded through `loads`.  The downstream layers are the
  boundaries buildService (service construction, may fail with a
  configuration error) and run (OnboardingAiService.run, may fail with any
  pipeline error).
-/

inductive IngestHttpOut where
  | ok : List AnswerOut → IngestHttpOut
  | err : Nat → String → IngestHttpOut
deriving DecidableEq

inductive IngestBody where
  | jsonBody (link : String) (publisher : String) (questions : List QuestionN) : IngestBody
  | formBody (link : Option String) (publisher : Option String)
      (questionsJson : Option String) : IngestBody

/-- Python str.upper() on ASCII. -/
def pyUpper (s : String) : String :=
  String.mk (s.toList.map Char.toUpper)

/-- Pydantic validation of one QUESTIONS_JSON element: an object carrying
the three required string fields (extra keys are ignored). -/
def validateQuestion : JsonVal → Option QuestionN
  | JsonVal.obj kvs =>
    match List.lookup "title" kvs, List.lookup "description" kvs,
        List.lookup "question" kvs with
    | some (JsonVal.str t), some (JsonVal.str d), some (JsonVal.str q) => some ⟨t, d, q⟩
    | _, _, _ => none
  | _ => none

/-- _parse_questions_json: decode the form field as a JSON array of valid
question items or fail with the 400 Invalid-QUESTIONS_JSON detail (the
per-exception suffix is elided). -/
def parseQuestionsJson (loads : String → Option JsonVal) (qj : String) :
    Except String (List QuestionN) :=
  match loads qj with
  | some (JsonVal.arr items) =>
    match items.mapM validateQuestion with
    | some qs => Except.ok qs
    | none => Except.error "Invalid QUESTIONS_JSON"
  | some _ => Except.error "Invalid QUESTIONS_JSON"
  | none => Except.error "Invalid QUESTIONS_JSON"

/-- The shared tail of the route handler after request parsing: the
questions-empty 400, the service-construction 500 and the pipeline-failure
422 mappings. -/
def ingest_after_parse (buildService : Except String Unit)
    (run : String → String → List QuestionN → Except String (List AnswerOut))
    (publisher link : String) (questions : List QuestionN) : IngestHttpOut :=
  if questions = [] then IngestHttpOut.err 400 "questions is empty"
  else
    match buildService with
    | Except.error e => IngestHttpOut.err 500 ("Server configuration error: " ++ e)
    | Except.ok _ =>
      match run publisher link questions with
      | Except.error e => IngestHttpOut.err 422 ("Ingest failed: " ++ e)
      | Except.ok answers => IngestHttpOut.ok answers

/-- The ingest route handler over a parsed request body. -/
def ingest_route (loads : String → Option JsonVal) (buildService : Except String Unit)
    (run : String → String → List QuestionN → Except String (List AnswerOut)) :
    IngestBody → IngestHttpOut
  | IngestBody.jsonBody link publisher questions =>
    if publisher ≠ "LH" ∧ publisher ≠ "SH" then
      IngestHttpOut.err 400 "Invalid JSON body: publisher must be LH or SH"
    else ingest_after_parse buildService run publisher (pyStrip link) questions
  | IngestBody.formBody linkF pubF qjF =>
    if pyStrip (linkF.getD "") = "" then IngestHttpOut.err 400 "Missing form field: link"
    else if pyUpper (pyStrip (pubF.getD "")) ≠ "LH" ∧ pyUpper (pyStrip (pubF.getD "")) ≠ "SH" then
      IngestHttpOut.err 400 "Invalid form field: publisher (must be LH or SH)"
    else
      match qjF with
      | none => IngestHttpOut.err 400 "Missing form field: QUESTIONS_JSON"
      | some qj =>
        if qj = "" then IngestHttpOut.err 400 "Missing form field: QUESTIONS_JSON"
        else
          match parseQuestionsJson loads qj with
          | Except.error e => IngestHttpOut.err 400 e
          | Except.ok questions =>
            ingest_after_parse buildService run (pyUpper (pyStrip (pubF.getD "")))
              (pyStrip (linkF.getD "")) questions

/-- C10: a JSON-body ingest request whose link is blank (empty or
whitespace-only) but whose publisher and non-empty questions validate is
not rejected with 400: it proceeds into pipeline execution with the
stripped (empty) link, a pipeline failure surfacing as 422 and a success
as the 200 answer list; the missing-link 400 check exists only in the
form-encoded path, where the same blank link yields 400. -/
theorem ingest_blank_link_json_no_400 (loads : String → Option JsonVal)
    (run : String → String → List QuestionN → Except String (List AnswerOut))
    (link publisher : String) (questions : List QuestionN)
    (hpub : publisher = "LH" ∨ publisher = "SH")
    (hlink : pyStrip link = "") (hq : questions ≠ []) :
    (∀ e, run publisher "" questions = Except.error e →
      ingest_route loads (Except.ok ()) run (IngestBody.jsonBody link publisher questions) =
        IngestHttpOut.err 422 ("Ingest failed: " ++ e)) ∧
    (∀ answers, run publisher "" questions = Except.ok answers →
      ingest_route loads (Except.ok ()) run (IngestBody.jsonBody link publisher questions) =
        IngestHttpOut.ok answers) ∧
    ingest_route loads (Except.ok ()) run
      (IngestBody.formBody (some link) (some publisher) (some "[]")) =
      IngestHttpOut.err 400 "Missing form field: link" := by
  have hp2 : ¬ (publisher ≠ "LH" ∧ publisher ≠ "SH") := by
    rcases hpub with h | h <;> simp [h]
  refine ⟨?_, ?_, ?_⟩
  · intro e he
    simp [ingest_route, hp2, hlink, ingest_after_parse, hq, he]
  · intro answers ha
    simp [ingest_route, hp2, hlink, ingest_after_parse, hq, ha]
  · simp [ingest_route, hlink]

/-- Witness for C10: a JSON body with a whitespace-only link, publisher SH
and one question reaches the pipeline, whose NotFound failure surfaces as
422. -/
theorem ingest_blank_link_json_no_400_witness :
    ingest_route (fun _ => none) (Except.ok ())
      (fun _ _ _ => Except.error "SH: no PDF attachment found")
      (IngestBody.jsonBody "   " "SH" [⟨"t", "d", "q"⟩]) =
      IngestHttpOut.err 422 ("Ingest failed: " ++ "SH: no PDF attachment found") :=
  (ingest_blank_link_json_no_400 (fun _ => none)
      (fun _ _ _ => Except.error "SH: no PDF attachment found")
      "   " "SH" [⟨"t", "d", "q"⟩] (Or.inr rfl) (by decide) (by decide)).1
    "SH: no PDF attachment found" rfl
